import Mathlib

/-!
Verification of the documentation build configuration `docs/source/conf.py`
of the hed-matlab repository.

The file under verification is a Sphinx configuration script: a linear
sequence of assignments executed once at build start.  We embed it as a
family of constants (one per assignment), a pure path-resolution function
modelling `os.path.abspath` / `os.path.join` / `os.path.normpath`, and a
construction function `buildConfiguration` that mirrors the script's
top-to-bottom execution, including the possibility that the import of the
theme-path helper (`sphinx_rtd_theme`) fails and aborts the run.

Paths are modelled POSIX-style as an absolute flag plus a list of
components; `os.path.abspath` is the lexical operation
normpath(join(cwd, p)), where cwd is the process's current working
directory.
-/

namespace HedConf

/-- A filesystem path: an absolute flag plus the list of path components,
mirroring the textual slash-separated form used by os.path. -/
structure PPath where
  absolute : Bool
  comps : List String
deriving DecidableEq, Repr

/-- Normalisation of the component list of an absolute path, as
os.path.normpath performs it: empty and "." components are dropped, ".."
pops the last accumulated component (and at the root, "/.." collapses to
"/").  `acc` holds the already-normalised components in reverse order. -/
def normAbs (acc : List String) : List String → List String
  | [] => acc.reverse
  | c :: rest =>
    if c = "" ∨ c = "." then normAbs acc rest
    else if c = ".." then normAbs (acc.drop 1) rest
    else normAbs (c :: acc) rest

/-- os.path.abspath: join the path onto the process's current working
directory (os.path.join semantics: an absolute second operand discards the
base) and normalise.  `cwd` is the component list of the absolute current
working directory.  The operation is purely lexical: it never consults the
filesystem. -/
def abspath (cwd : List String) (p : PPath) : PPath :=
  if p.absolute then ⟨true, normAbs [] p.comps⟩
  else ⟨true, normAbs [] (cwd ++ p.comps)⟩

/-- project = the string assigned on the project line of conf.py. -/
def project : String := "HED Resources"

/-- copyright = the start-year literal, the decimal rendering of
date.today().year spliced in by str.format, and the trailing attribution,
exactly as the format template concatenates them. -/
def copyright (year : Nat) : String :=
  "2017-" ++ (Nat.repr year ++ ", HED Working Group")

/-- author string of conf.py. -/
def author : String := "HED Working Group"

/-- version string of conf.py. -/
def version : String := "0.0.1"

/-- release string of conf.py. -/
def release : String := "0.0.1"

/-- matlab_src_dir = os.path.abspath(os.path.join("..", "..")): the relative
path "../.." made absolute against the current working directory. -/
def matlab_src_dir (cwd : List String) : PPath :=
  abspath cwd ⟨false, ["..", ".."]⟩

/-- The extension list of conf.py, in source order. -/
def extensions : List String :=
  ["myst_parser", "sphinxcontrib.matlab", "sphinx.ext.autodoc"]

/-- primary_domain of conf.py. -/
def primary_domain : String := "mat"

/-- autosummary_generate flag of conf.py. -/
def autosummary_generate : Bool := true

/-- autodoc_default_flags of conf.py. -/
def autodoc_default_flags : List String := ["members", "inherited-members"]

/-- add_module_names flag of conf.py. -/
def add_module_names : Bool := false

/-- myst_all_links_external flag of conf.py. -/
def myst_all_links_external : Bool := false

/-- myst_heading_anchors of conf.py. -/
def myst_heading_anchors : Nat := 4

/-- myst_enable_extensions of conf.py. -/
def myst_enable_extensions : List String := ["deflist"]

/-- templates_path of conf.py: directories scanned for template overrides,
relative to the configuration directory. -/
def templates_path : List String := ["_templates"]

/-- source_suffix of conf.py: recognised source file suffixes, in order. -/
def source_suffix : List String := [".rst", ".md"]

/-- master_doc of conf.py. -/
def master_doc : String := "index"

/-- exclude_patterns of conf.py: patterns skipped during source discovery. -/
def exclude_patterns : List String :=
  ["_build", "_templates", "Thumbs.db", ".DS_Store"]

/-- pygments_style of conf.py. -/
def pygments_style : String := "sphinx"

/-- html_theme of conf.py. -/
def html_theme : String := "sphinx_rtd_theme"

/-- Value type of the html_theme_options mapping: the source uses string,
boolean and integer values. -/
inductive OptVal where
  | str (s : String)
  | bool (b : Bool)
  | nat (n : Nat)
deriving DecidableEq, Repr

/-- html_theme_options of conf.py, as the ordered key-value list written in
the source. -/
def html_theme_options : List (String × OptVal) :=
  [("analytics_id", OptVal.str "UA-XXXXXXX-1"),
   ("analytics_anonymize_ip", OptVal.bool false),
   ("logo_only", OptVal.bool false),
   ("display_version", OptVal.bool true),
   ("prev_next_buttons_location", OptVal.str "top"),
   ("style_external_links", OptVal.bool false),
   ("vcs_pageview_mode", OptVal.str ""),
   ("style_nav_header_background", OptVal.str "LightSlateGray"),
   ("collapse_navigation", OptVal.bool false),
   ("sticky_navigation", OptVal.bool true),
   ("navigation_depth", OptVal.nat 4),
   ("includehidden", OptVal.bool true),
   ("titles_only", OptVal.bool false)]

/-- html_static_path of conf.py. -/
def html_static_path : List String := ["_static"]

/-- The BuildConfiguration surface: every setting conf.py assigns, read by
the external documentation tool after the script has run. -/
structure BuildConfiguration where
  project : String
  copyright : String
  author : String
  version : String
  release : String
  matlab_src_dir : PPath
  extensions : List String
  primary_domain : String
  autosummary_generate : Bool
  autodoc_default_flags : List String
  add_module_names : Bool
  myst_all_links_external : Bool
  myst_heading_anchors : Nat
  myst_enable_extensions : List String
  templates_path : List String
  source_suffix : List String
  master_doc : String
  exclude_patterns : List String
  pygments_style : String
  html_theme : String
  html_theme_path : List PPath
  html_theme_options : List (String × OptVal)
  html_static_path : List String
deriving DecidableEq, Repr

/-- The one failure class of configuration construction: a fatal startup
error, caused by a missing required runtime dependency or an unresolvable
filesystem path. -/
inductive FatalStartupError where
  | missingDependency (dep : String)
  | unresolvablePath (p : String)
deriving DecidableEq, Repr

/-- The fully populated configuration assembled by a successful run of
conf.py.  `themePath` is the value returned by the theme-path helper
(sphinx_rtd_theme.get_html_theme_path), `year` is date.today().year at
invocation time, and `cwd` is the process's current working directory. -/
def configOf (themePath : PPath) (year : Nat) (cwd : List String) :
    BuildConfiguration :=
  { project := project
    copyright := copyright year
    author := author
    version := version
    release := release
    matlab_src_dir := matlab_src_dir cwd
    extensions := extensions
    primary_domain := primary_domain
    autosummary_generate := autosummary_generate
    autodoc_default_flags := autodoc_default_flags
    add_module_names := add_module_names
    myst_all_links_external := myst_all_links_external
    myst_heading_anchors := myst_heading_anchors
    myst_enable_extensions := myst_enable_extensions
    templates_path := templates_path
    source_suffix := source_suffix
    master_doc := master_doc
    exclude_patterns := exclude_patterns
    pygments_style := pygments_style
    html_theme := html_theme
    html_theme_path := [themePath]
    html_theme_options := html_theme_options
    html_static_path := html_static_path }

/-- Executing conf.py top to bottom: the import of the theme-path helper
(sphinx_rtd_theme, imported at the top of the script and called for
html_theme_path) can be missing, which aborts the whole run before any
configuration is produced; otherwise every setting is assembled and the
complete configuration is handed over. -/
def buildConfiguration (themeHelper : Option PPath) (year : Nat)
    (cwd : List String) : Except FatalStartupError BuildConfiguration :=
  match themeHelper with
  | none => Except.error (FatalStartupError.missingDependency "sphinx_rtd_theme")
  | some themePath => Except.ok (configOf themePath year cwd)

/-- Definition following the spec's words for the source root path: the
relative two-levels-up path resolved against the invoking script's own
filesystem location, not against any other base directory.  Stated for
comparison with `matlab_src_dir`, which the source computes with
os.path.abspath against the current working directory. -/
def specSourceRoot (scriptDir : List String) : PPath :=
  abspath scriptDir ⟨false, ["..", ".."]⟩

/-- A clean path component: not empty, not "." and not "..". -/
def CleanComp (c : String) : Prop := c ≠ "" ∧ c ≠ "." ∧ c ≠ ".."

theorem normAbs_clean (l : List String) : ∀ acc : List String,
    (∀ c ∈ acc, CleanComp c) → ∀ c ∈ normAbs acc l, CleanComp c := by
  induction l with
  | nil =>
    intro acc hacc c hc
    simp only [normAbs] at hc
    exact hacc c (List.mem_reverse.mp hc)
  | cons x rest ih =>
    intro acc hacc c hc
    simp only [normAbs] at hc
    split at hc
    · exact ih acc hacc c hc
    · rename_i h1
      split at hc
      · exact ih (acc.drop 1) (fun d hd => hacc d (List.drop_subset 1 acc hd)) c hc
      · rename_i h2
        refine ih (x :: acc) (fun d hd => ?_) c hc
        rcases List.mem_cons.mp hd with rfl | h
        · exact ⟨fun he => h1 (Or.inl he), fun he => h1 (Or.inr he), h2⟩
        · exact hacc d h

theorem normAbs_of_clean (l : List String) : ∀ acc : List String,
    (∀ c ∈ l, CleanComp c) → normAbs acc l = acc.reverse ++ l := by
  induction l with
  | nil => intro acc _; simp [normAbs]
  | cons x rest ih =>
    intro acc hl
    obtain ⟨hx1, hx2, hx3⟩ := hl x (List.mem_cons_self x rest)
    have hrest : ∀ c ∈ rest, CleanComp c :=
      fun c hc => hl c (List.mem_cons_of_mem x hc)
    simp only [normAbs]
    rw [if_neg (by simp [hx1, hx2]), if_neg hx3, ih (x :: acc) hrest]
    simp

theorem normAbs_idem (l : List String) :
    normAbs [] (normAbs [] l) = normAbs [] l := by
  have h : ∀ c ∈ normAbs [] l, CleanComp c :=
    normAbs_clean l [] (by intro c hc; exact absurd hc (List.not_mem_nil c))
  rw [normAbs_of_clean (normAbs [] l) [] h]
  simp

/-- Claim C1 counterexample: the claim that no string of exclude_patterns
equals any string of templates_path is false on the code: the string
"_templates" occurs in both sequences of every produced configuration. -/
theorem C1_counterexample :
    "_templates" ∈ (configOf ⟨true, []⟩ 2024 []).exclude_patterns ∧
      "_templates" ∈ (configOf ⟨true, []⟩ 2024 []).templates_path := by
  constructor
  · show "_templates" ∈ exclude_patterns
    decide
  · show "_templates" ∈ templates_path
    decide

/-- Claim C1 (amended): in every produced BuildConfiguration the exclusion
patterns and the template path overlap in exactly one element, the string
"_templates": the configured template directory is itself listed as an
exclusion pattern (so it is skipped during source discovery), and no other
exclusion pattern occurs in templates_path. -/
theorem C1_overlap_exactly_templates (p : PPath) (y : Nat) (cwd : List String)
    (s : String) :
    (s ∈ (configOf p y cwd).exclude_patterns ∧
        s ∈ (configOf p y cwd).templates_path) ↔ s = "_templates" := by
  constructor
  · rintro ⟨-, h2⟩
    have h2' : s ∈ templates_path := h2
    simpa [templates_path] using h2'
  · rintro rfl
    refine ⟨?_, ?_⟩
    · show "_templates" ∈ exclude_patterns
      decide
    · show "_templates" ∈ templates_path
      decide

/-- Claim C2 counterexample: the source root path is not, in general, the
resolution of "../.." against the script's own location: os.path.abspath
resolves against the process's current working directory.  With working
directory /a and the script located at /b/c/d, the code yields the root
path / while resolution against the script's location yields /b. -/
theorem C2_counterexample :
    matlab_src_dir ["a"] ≠ specSourceRoot ["b", "c", "d"] := by decide

/-- Claim C2 (amended): matlab_src_dir is the absolute-path resolution of
the relative two-levels-up path against the process's current working
directory; whenever that working directory equals the script's own
directory (as the external tool arranges when executing the configuration
script) it coincides with resolution against the script's location, and
the produced path is always absolute.  The resolution itself is purely
lexical and total, so it introduces no failure. -/
theorem C2_src_dir_matches_script_cwd (cwd scriptDir : List String)
    (h : cwd = scriptDir) :
    matlab_src_dir cwd = specSourceRoot scriptDir ∧
      (matlab_src_dir cwd).absolute = true := by
  subst h
  exact ⟨rfl, rfl⟩

/-- Claim C2 witness: amended theorem applied at the concrete working
directory docs/source, which is the script's own directory. -/
theorem C2_witness :
    matlab_src_dir ["docs", "source"] = specSourceRoot ["docs", "source"] ∧
      (matlab_src_dir ["docs", "source"]).absolute = true :=
  C2_src_dir_matches_script_cwd ["docs", "source"] ["docs", "source"] rfl

/-- Claim C3: when the current calendar year at invocation time is 2024,
the copyright string of the produced configuration is exactly
"2017-2024, HED Working Group". -/
theorem C3_copyright_2024 (p : PPath) (cwd : List String) :
    (configOf p 2024 cwd).copyright = "2017-2024, HED Working Group" := by
  show copyright 2024 = "2017-2024, HED Working Group"
  decide

/-- Claim C4: the extension list of every produced configuration is exactly
the three entries myst_parser, sphinxcontrib.matlab, sphinx.ext.autodoc in
that order; consequently it is non-empty and has no duplicates. -/
theorem C4_extensions_exact (p : PPath) (y : Nat) (cwd : List String) :
    (configOf p y cwd).extensions =
        ["myst_parser", "sphinxcontrib.matlab", "sphinx.ext.autodoc"] ∧
      (configOf p y cwd).extensions ≠ [] ∧
      (configOf p y cwd).extensions.Nodup := by
  refine ⟨rfl, ?_, ?_⟩
  · show extensions ≠ []
    decide
  · show extensions.Nodup
    decide

/-- Claim C5: for every invocation year, the produced copyright string
contains the fixed start year 2017 and the decimal rendering of the
invocation year; when the invocation year is 2017 itself the literal
output "2017-2017, HED Working Group" is produced, not an error. -/
theorem C5_copyright_contains_years (p : PPath) (y : Nat) (cwd : List String) :
    (∃ a b : String, (configOf p y cwd).copyright = a ++ ("2017" ++ b)) ∧
      (∃ c d : String, (configOf p y cwd).copyright = c ++ (Nat.repr y ++ d)) ∧
      copyright 2017 = "2017-2017, HED Working Group" := by
  refine ⟨⟨"", "-" ++ (Nat.repr y ++ ", HED Working Group"), ?_⟩,
    ⟨"2017-", ", HED Working Group", rfl⟩, by decide⟩
  show copyright y = "" ++ ("2017" ++ ("-" ++ (Nat.repr y ++ ", HED Working Group")))
  rw [copyright, ← String.append_assoc "2017" "-" (Nat.repr y ++ ", HED Working Group")]
  rfl

/-- Claim C6: configuration construction fails only with a
FatalStartupError, and the only failure the script can raise is the
missing theme-path helper (within the claimed taxonomy of unresolvable
path or missing dependency); an error aborts construction with no partial
configuration, and when the helper is present the complete configuration
is produced. -/
theorem C6_failure_taxonomy (th : Option PPath) (y : Nat) (cwd : List String) :
    (∀ e, buildConfiguration th y cwd = Except.error e ↔
        (th = none ∧ e = FatalStartupError.missingDependency "sphinx_rtd_theme")) ∧
      (∀ p, th = some p →
        buildConfiguration th y cwd = Except.ok (configOf p y cwd)) := by
  cases th with
  | none =>
    refine ⟨fun e => ?_, fun p hp => Option.noConfusion hp⟩
    simp [buildConfiguration, eq_comm]
  | some q =>
    refine ⟨fun e => ?_, fun p hp => ?_⟩
    · simp [buildConfiguration]
    · obtain rfl := Option.some.inj hp
      rfl

/-- Claim C6 witness: construction with the helper present at a concrete
year and working directory yields the complete configuration. -/
theorem C6_witness :
    buildConfiguration (some ⟨true, ["opt", "theme"]⟩) 2024 ["docs", "source"] =
      Except.ok (configOf ⟨true, ["opt", "theme"]⟩ 2024 ["docs", "source"]) :=
  (C6_failure_taxonomy (some ⟨true, ["opt", "theme"]⟩) 2024 ["docs", "source"]).2
    ⟨true, ["opt", "theme"]⟩ rfl

/-- Claim C7: source root path resolution is idempotent and deterministic:
resolving the already-resolved path again, from any working directory,
returns the same absolute path as the first resolution (the function
itself is pure, so repetitions from a fixed location agree with the first
run). -/
theorem C7_resolution_idempotent (cwd base : List String) :
    abspath base (matlab_src_dir cwd) = matlab_src_dir cwd := by
  show (⟨true, normAbs [] (normAbs [] (cwd ++ ["..", ".."]))⟩ : PPath) =
    ⟨true, normAbs [] (cwd ++ ["..", ".."])⟩
  rw [normAbs_idem]

/-- Claim C8: in every produced BuildConfiguration the version string
equals the release string and both are exactly "0.0.1". -/
theorem C8_version_release (p : PPath) (y : Nat) (cwd : List String) :
    (configOf p y cwd).version = "0.0.1" ∧
      (configOf p y cwd).release = "0.0.1" ∧
      (configOf p y cwd).version = (configOf p y cwd).release :=
  ⟨rfl, rfl, rfl⟩

/-- Claim C9: every produced configuration recognises exactly the two
source suffixes ".rst" and ".md", in that order. -/
theorem C9_source_suffix (p : PPath) (y : Nat) (cwd : List String) :
    (configOf p y cwd).source_suffix = [".rst", ".md"] := rfl

/-- Claim C10: no element of the static asset path sequence (which is
exactly the singleton "_static") appears in the exclusion pattern list of
any produced configuration. -/
theorem C10_static_not_excluded (p : PPath) (y : Nat) (cwd : List String) :
    (configOf p y cwd).html_static_path = ["_static"] ∧
      ∀ s, s ∈ (configOf p y cwd).html_static_path →
        s ∉ (configOf p y cwd).exclude_patterns := by
  refine ⟨rfl, ?_⟩
  intro s hs
  have hs' : s ∈ html_static_path := hs
  have : s = "_static" := by simpa [html_static_path] using hs'
  subst this
  show "_static" ∉ exclude_patterns
  decide

/-- Claim C10 witness: the concrete static directory "_static" is a member
of the static path and not excluded. -/
theorem C10_witness :
    "_static" ∉ (configOf ⟨true, []⟩ 2024 []).exclude_patterns :=
  (C10_static_not_excluded ⟨true, []⟩ 2024 []).2 "_static" (by decide)

end HedConf
